import Mathlib

/-!
Verification development for the storivahub-backend scheduling and
social-media publication pipeline.

Shallow embedding of:
  * the per-platform publication records embedded in a `Story`
    (src/models/Story.js, `socialMediaPosts.facebook` / `.instagram`);
  * the platform clients (src/services/socialMedia.js):
    `FacebookAPI.postVideo` / `postComment`,
    `InstagramAPI.postVideo` / `waitForMediaReady` / `postComment`;
  * the scheduler (`PostScheduler`): the single-flight cron guard in
    `init`, the due-story query in `processScheduledPosts`, the
    per-platform due guards, result merge and deferred comment job in
    `postToSocialMedia`, and the deferred job's targeted
    `findByIdAndUpdate` write;
  * `isScheduledTimeReached` (src/utils/timezone.js).

Time is modelled as `Nat` (milliseconds since epoch); JavaScript `Date`
comparison `scheduled <= now` becomes `≤` on `Nat`.  Optional document
fields become `Option` values; JavaScript truthiness of an optional
string (`undefined` and `""` are falsy) is the predicate `truthy`.
External HTTP calls are oracles: an `Except ApiError String` is either
the id string the endpoint returned or the axios error object, with the
fields the code reads (`error.response?.data?.error?.message`,
`error.response?.data?.message`, `error.message`).
-/

/-- JavaScript truthiness of a possibly-absent string: `undefined`
(`none`) and the empty string are falsy, every other string is truthy. -/
def truthy : Option String → Bool
  | none => false
  | some s => s != ""

/-- The fields of an axios error that the error-normalisation chains in
src/services/socialMedia.js read. -/
structure ApiError where
  /-- `error.response?.data?.error?.message` -/
  apiErrMsg : Option String
  /-- `error.response?.data?.message` -/
  dataMsg : Option String
  /-- `error.message` (transport-level message) -/
  message : Option String
  deriving DecidableEq, Repr

/-- JavaScript `a || b || ... || fallback` over optional strings: the
first truthy value, else the fallback. -/
def firstTruthy (fallback : String) : List (Option String) → String
  | [] => fallback
  | o :: rest => if truthy o then o.getD "" else firstTruthy fallback rest

/-- The error-message normalisation used by every client catch block:
`error.response?.data?.error?.message || error.response?.data?.message ||
error.message || <platform default>`. -/
def normalizeError (e : ApiError) (fallback : String) : String :=
  firstTruthy fallback [e.apiErrMsg, e.dataMsg, e.message]

/-- The result object a platform `postVideo` call resolves with
(src/services/socialMedia.js).  Success objects carry
`{success: true, postId, needsComment, firstComment}`; failure objects
carry `{success: false, error}` (the other fields are absent, i.e.
`none` / `false`). -/
structure SMResult where
  success : Bool
  postId : Option String
  needsComment : Bool
  firstComment : Option String
  error : Option String
  deriving DecidableEq, Repr

/-- `FacebookAPI.postVideo` (src/services/socialMedia.js:9-41): a single
create call; on HTTP success it returns `{success: true,
postId: response.data.id, needsComment: !!firstComment, firstComment}`,
on a caught error `{success: false, error: <normalized message>}`. -/
def fbPostVideo (call : Except ApiError String) (firstComment : String) : SMResult :=
  match call with
  | Except.ok postId =>
    { success := true, postId := some postId,
      needsComment := firstComment != "", firstComment := some firstComment,
      error := none }
  | Except.error e =>
    { success := false, postId := none, needsComment := false, firstComment := none,
      error := some (normalizeError e "Unknown Facebook API error") }

/-- The `{status_code, status}` fields of the Instagram media-container
status response; `InstagramAPI.waitForMediaReady` reads
`statusResponse.data.status_code || statusResponse.data.status`. -/
structure IGStatusData where
  statusCode : Option String
  statusField : Option String
  deriving DecidableEq, Repr

/-- `status_code || status`: JavaScript `||` falls through to the second
operand when the first is falsy. -/
def readStatus (d : IGStatusData) : Option String :=
  if truthy d.statusCode then d.statusCode else d.statusField

/-- One poll attempt of the status endpoint: either an HTTP response with
status data, or a thrown transport error (caught by the `try` wrapping the
whole loop). -/
inductive PollAttempt where
  | response (d : IGStatusData)
  | transportErr (msg : String)
  deriving DecidableEq, Repr

/-- Which of the distinct `return` points of
`InstagramAPI.waitForMediaReady` ended the wait.  `finished` is the sole
`return true`; the other three are the `return false` points (terminal
ERROR/EXPIRED status, loop exhaustion, caught transport error). -/
inductive PollExit where
  | finished
  | badStatus
  | timeout
  | transport (msg : String)
  deriving DecidableEq, Repr

/-- The boolean `waitForMediaReady` actually returns: `true` only at the
FINISHED exit. -/
def PollExit.toBool : PollExit → Bool
  | PollExit.finished => true
  | _ => false

/-- The status classification of one attempt, following the source's
checks in order: `status === 'FINISHED'` returns `true` at once;
`status === 'ERROR' || status === 'EXPIRED'` returns `false` at once;
a thrown transport error aborts the loop through the outer catch
(returning `false`); any other status (`IN_PROGRESS`, `PUBLISHED`, a
missing status, or an unrecognised value) is `none`: sleep and keep
polling. -/
def terminalExit : PollAttempt → Option PollExit
  | PollAttempt.transportErr m => some (PollExit.transport m)
  | PollAttempt.response d =>
    if readStatus d == some "FINISHED" then some PollExit.finished
    else if readStatus d == some "ERROR" || readStatus d == some "EXPIRED" then
      some PollExit.badStatus
    else none

/-- An attempt whose outcome makes the loop continue (both
sleep-and-continue branches of the source). -/
def transientAttempt (a : PollAttempt) : Bool :=
  (terminalExit a).isNone

/-- The polling loop of `InstagramAPI.waitForMediaReady`
(src/services/socialMedia.js:162-208), from attempt number `attempt` with
`remaining` iterations left.  `st` is the oracle giving each 1-based
attempt's result.  Returns the exit and the number of polls performed;
the `retryDelay` sleep between polls has no observable effect and is not
modelled. -/
def waitFrom (st : Nat → PollAttempt) (attempt : Nat) : Nat → PollExit × Nat
  | 0 => (PollExit.timeout, 0)
  | remaining + 1 =>
    match terminalExit (st attempt) with
    | some e => (e, 1)
    | none =>
      let rest := waitFrom st (attempt + 1) remaining
      (rest.1, rest.2 + 1)

/-- `waitForMediaReady(creationId, maxRetries)`: the loop
`for (let attempt = 1; attempt <= maxRetries; attempt++)`. -/
def waitForMediaReady (st : Nat → PollAttempt) (maxRetries : Nat) : PollExit × Nat :=
  waitFrom st 1 maxRetries

/-- The external behaviour an Instagram publish run interacts with: the
container-create call, the status oracle for the readiness polls, and the
`media_publish` call. -/
structure IGEnv where
  createCall : Except ApiError String
  statuses : Nat → PollAttempt
  publishCall : Except ApiError String

/-- The plain `Error` thrown when the poller does not return ready:
only its `message` field is populated. -/
def containerStuckErr : ApiError :=
  { apiErrMsg := none, dataMsg := none,
    message := some "Media container failed to process or timed out" }

/-- The failure result built by the catch block of
`InstagramAPI.postVideo`. -/
def igFailure (e : ApiError) : SMResult :=
  { success := false, postId := none, needsComment := false, firstComment := none,
    error := some (normalizeError e "Unknown Instagram API error") }

/-- `InstagramAPI.postVideo` (src/services/socialMedia.js:103-160):
create the media container, poll it with `waitForMediaReady` (30
attempts), and only on a `true` poll result publish it.  When the poller
returns `false` the code throws
`new Error('Media container failed to process or timed out')`, which the
catch block normalises (a plain `Error` carries only `message`). -/
def igPostVideo (env : IGEnv) (firstComment : String) : SMResult :=
  match env.createCall with
  | Except.error e => igFailure e
  | Except.ok _creationId =>
    if (waitForMediaReady env.statuses 30).1.toBool then
      match env.publishCall with
      | Except.error e => igFailure e
      | Except.ok postId =>
        { success := true, postId := some postId,
          needsComment := firstComment != "", firstComment := some firstComment,
          error := none }
    else
      igFailure containerStuckErr

/-- The result object a `postComment` call resolves with. -/
structure CommentResult where
  success : Bool
  commentId : Option String
  error : Option String
  deriving DecidableEq, Repr

/-- The two endpoint shapes `FacebookAPI.postComment` may call: the
primary `pageId_postId/comments` request and the alternative
`postId/comments` retry. -/
structure CommentEnv where
  primaryCall : Except ApiError String
  altCall : Except ApiError String

/-- `FacebookAPI.postComment` (src/services/socialMedia.js:43-94):
primary call; on failure exactly one retry against the alternative
endpoint shape; on double failure the message is normalised from the
original (primary) error. Also returns how many HTTP attempts were
made. -/
def fbPostComment (env : CommentEnv) : CommentResult × Nat :=
  match env.primaryCall with
  | Except.ok cid => ({ success := true, commentId := some cid, error := none }, 1)
  | Except.error e =>
    match env.altCall with
    | Except.ok cid => ({ success := true, commentId := some cid, error := none }, 2)
    | Except.error _retryErr =>
      ({ success := false, commentId := none,
         error := some (normalizeError e "Failed to add comment - permissions error") }, 2)

/-- `InstagramAPI.postComment` (src/services/socialMedia.js:210-238): a
single call against `postId/comments`; the catch block returns a failure
result directly, with no alternative attempt.  Also returns how many HTTP
attempts were made. -/
def igPostComment (call : Except ApiError String) : CommentResult × Nat :=
  match call with
  | Except.ok cid => ({ success := true, commentId := some cid, error := none }, 1)
  | Except.error e =>
    ({ success := false, commentId := none,
       error := some (normalizeError e "Failed to add Instagram comment") }, 1)

/-!  Data model: the per-platform publication sub-document of a `Story`
(src/models/Story.js, `socialMediaPosts.facebook` / `.instagram`). -/

/-- One `socialMediaPosts.<platform>` record.  Schema defaults:
`posted` and `failed` default to `false`, all other fields are absent
until written. -/
structure PlatformRecord where
  postId : Option String
  posted : Bool
  postedAt : Option Nat
  scheduledTime : Option Nat
  error : Option String
  failed : Bool
  commentId : Option String
  commentError : Option String
  deriving DecidableEq, Repr

/-- A record carrying only the schema defaults. -/
def defaultRecord : PlatformRecord :=
  { postId := none, posted := false, postedAt := none, scheduledTime := none,
    error := none, failed := false, commentId := none, commentError := none }

/-- The `video` sub-document of a `Story`, as far as posting reads it. -/
structure Video where
  url : String
  caption : Option String
  hashtags : List String
  firstComment : Option String
  deriving DecidableEq, Repr

/-- A `Story` document, restricted to the fields the scheduler touches. -/
structure Story where
  title : String
  isPublished : Bool
  scheduledDate : Option Nat
  video : Option Video
  facebook : PlatformRecord
  instagram : PlatformRecord
  deriving DecidableEq, Repr

/-- The two platforms the current scheduler posts to. -/
inductive Platform where
  | facebook
  | instagram
  deriving DecidableEq, Repr

/-- The platform record of a story. -/
def Story.recordOf (s : Story) : Platform → PlatformRecord
  | Platform.facebook => s.facebook
  | Platform.instagram => s.instagram

/-- Replace the platform record of a story. -/
def setRecord (s : Story) : Platform → PlatformRecord → Story
  | Platform.facebook, r => { s with facebook := r }
  | Platform.instagram, r => { s with instagram := r }

/-!  Scheduler embedding (src/services/scheduler.js, the current
Facebook + Instagram version of `PostScheduler`). -/

/-- `isScheduledTimeReached` (src/utils/timezone.js:103-110): false when
no time is set, otherwise `scheduled <= now`. -/
def isScheduledTimeReached (scheduledTime : Option Nat) (now : Nat) : Bool :=
  match scheduledTime with
  | none => false
  | some t => t ≤ now

/-- The per-platform guard in `PostScheduler.postToSocialMedia`:
`r.scheduledTime && isScheduledTimeReached(r.scheduledTime) &&
!r.posted`. -/
def shouldPost (r : PlatformRecord) (now : Nat) : Bool :=
  r.scheduledTime.isSome && isScheduledTimeReached r.scheduledTime now && !r.posted

/-- One branch of the `$or` in the due-story query of
`processScheduledPosts`: `scheduledTime: {$lte: now}` (a missing field
matches no `$lte`) and `posted: false`. -/
def platformDueQuery (r : PlatformRecord) (now : Nat) : Bool :=
  (match r.scheduledTime with
   | none => false
   | some t => t ≤ now) && !r.posted

/-- The due-story query of `processScheduledPosts`: `isPublished: true`
with at least one platform branch of the `$or` matching. -/
def storyDueQuery (s : Story) (now : Nat) : Bool :=
  s.isPublished && (platformDueQuery s.facebook now || platformDueQuery s.instagram now)

/-- The per-platform result merge of `PostScheduler.postToSocialMedia`:
`posted = result.success`; `postedAt = new Date()` only on success;
`postId = result.postId` only when that value is truthy; on failure
`error` is assigned the result's message (the source stringifies a
non-string value; client failure results always carry a string).
`failed`, `commentId` and `commentError` are not written here. -/
def mergeResult (r : PlatformRecord) (res : SMResult) (now : Nat) : PlatformRecord :=
  { r with
    posted := res.success
    postedAt := if res.success then some now else r.postedAt
    postId := if truthy res.postId then res.postId else r.postId
    error := if res.success then r.error else res.error }

/-- A deferred first-comment job: the data the `setTimeout` closure in
`postToSocialMedia` captures. -/
structure CommentJob where
  platform : Platform
  jobPostId : String
  text : String
  deriving DecidableEq, Repr

/-- The deferred-comment scheduling condition in `postToSocialMedia`:
inside `if (result.postId)`, a job is registered when
`result.success && result.needsComment && result.firstComment`. -/
def commentJobOf (p : Platform) (res : SMResult) : List CommentJob :=
  if truthy res.postId && (res.success && res.needsComment && truthy res.firstComment) then
    [{ platform := p, jobPostId := res.postId.getD "", text := res.firstComment.getD "" }]
  else []

/-- The observable outcome of one `postToSocialMedia(story)` call: the
story as saved, which platform publish calls were made, which deferred
comment jobs were registered, and whether `story.save()` ran. -/
structure TickOutput where
  story : Story
  fbCalled : Bool
  igCalled : Bool
  jobs : List CommentJob
  saved : Bool
  deriving DecidableEq, Repr

/-- `PostScheduler.postToSocialMedia` (current version): return
immediately when `story.video` is absent; otherwise invoke each
platform's publish exactly under its due guard, merge each obtained
result into the story's record, register deferred comment jobs, and save
the story once.  `fbRes`/`igRes` are the results the respective
`postVideo` calls would resolve with (the calls themselves never throw:
each client catches internally). -/
def postToSocialMedia (s : Story) (now : Nat) (fbRes igRes : SMResult) : TickOutput :=
  match s.video with
  | none => { story := s, fbCalled := false, igCalled := false, jobs := [], saved := false }
  | some _ =>
    let fbDue := shouldPost s.facebook now
    let igDue := shouldPost s.instagram now
    let fb' := if fbDue then mergeResult s.facebook fbRes now else s.facebook
    let ig' := if igDue then mergeResult s.instagram igRes now else s.instagram
    let fbJobs := if fbDue then commentJobOf Platform.facebook fbRes else []
    let igJobs := if igDue then commentJobOf Platform.instagram igRes else []
    { story := { s with facebook := fb', instagram := ig' },
      fbCalled := fbDue, igCalled := igDue,
      jobs := fbJobs ++ igJobs, saved := true }

/-- The deferred comment job's database write:
`Story.findByIdAndUpdate(story._id, {$set: success ?
{'socialMediaPosts.<p>.commentId': commentId} :
{'socialMediaPosts.<p>.commentError': error}})` - a targeted field-level
update of exactly one field of one platform record. -/
def applyCommentUpdate (s : Story) (p : Platform) (cr : CommentResult) : Story :=
  if cr.success then
    setRecord s p { s.recordOf p with commentId := cr.commentId }
  else
    setRecord s p { s.recordOf p with commentError := cr.error }

/-- The admin reschedule endpoint's record update (routes/admin.js):
sets a new `scheduledTime` and clears `posted`, `failed`, `error`,
`postedAt` (it does not touch `postId`, `commentId`, `commentError`). -/
def reschedule (r : PlatformRecord) (newTime : Nat) : PlatformRecord :=
  { r with scheduledTime := some newTime, posted := false, failed := false,
           error := none, postedAt := none }

/-!  Single-flight tick guard (`PostScheduler.init`): the cron callback
runs `if (this.isRunning) return; this.isRunning = true;
try { await this.processScheduledPosts(); } catch {...}
finally { this.isRunning = false; }`.

Because the body is awaited, further cron firings can interleave with a
running body; JavaScript's single thread makes the check-and-set and the
`finally` reset atomic.  We model the callback as two atomic events: a
`trigger` (the check-and-set prefix) and a `bodyDone ok` (the body's
completion - resolved or thrown - followed by the `finally` reset). -/

/-- An atomic event of the tick state machine. -/
inductive TickEvent where
  | trigger
  | bodyDone (ok : Bool)
  deriving DecidableEq, Repr

/-- Scheduler state: the `isRunning` flag and the number of tick bodies
currently executing. -/
structure SchedState where
  isRunning : Bool
  active : Nat
  deriving DecidableEq, Repr

/-- Initial scheduler state: flag clear, no body executing. -/
def startSched : SchedState := { isRunning := false, active := 0 }

/-- One atomic event: a trigger while `isRunning` is a pure no-op
(dropped, not queued); a trigger while idle sets the flag and starts a
body; a body completion (whether it resolved or threw) runs the
`finally`, clearing the flag. -/
def schedStep : SchedState → TickEvent → SchedState
  | s, TickEvent.trigger =>
    if s.isRunning then s else { isRunning := true, active := s.active + 1 }
  | s, TickEvent.bodyDone _ => { isRunning := false, active := s.active - 1 }

/-- A `bodyDone` event is only meaningful while a body is executing. -/
def eventOk (s : SchedState) : TickEvent → Bool
  | TickEvent.trigger => true
  | TickEvent.bodyDone _ => decide (1 ≤ s.active)

/-- A sequence of events is a valid run when every `bodyDone` happens
while a body is in flight. -/
def validFrom : SchedState → List TickEvent → Bool
  | _, [] => true
  | s, e :: rest => eventOk s e && validFrom (schedStep s e) rest

/-- Run a sequence of events. -/
def runEvents (s : SchedState) (evs : List TickEvent) : SchedState :=
  List.foldl schedStep s evs

/-- The single-flight invariant: at most one body executes at a time and
the flag is set exactly while one does. -/
def schedInv (s : SchedState) : Prop :=
  s.active ≤ 1 ∧ (s.isRunning = true ↔ s.active = 1)

/-!  Concrete fixtures used by witnesses and counterexamples. -/

/-- An axios error whose only populated field is the transport message. -/
def rateLimitedErr : ApiError :=
  { apiErrMsg := none, dataMsg := none, message := some "rate limited" }

/-- A failure result as `FacebookAPI.postVideo` produces it. -/
def failRes : SMResult := fbPostVideo (Except.error rateLimitedErr) "hi"

/-- A success result carrying a non-empty post id. -/
def fbOkRes : SMResult := fbPostVideo (Except.ok "fb_post_1") "hello"

/-- A success result whose create response carried an empty id. -/
def emptyIdRes : SMResult := fbPostVideo (Except.ok "") "hello"

/-- A platform record scheduled at time 5, otherwise schema defaults. -/
def dueRec : PlatformRecord := { defaultRecord with scheduledTime := some 5 }

/-- A due record still carrying the error message of an earlier failed
attempt. -/
def erroredRec : PlatformRecord :=
  { defaultRecord with scheduledTime := some 5, error := some "old failure" }

/-- A published story with a video whose Facebook record is due at time
10 and whose Instagram record is unscheduled. -/
def storyFBDue : Story :=
  { title := "t", isPublished := true, scheduledDate := none,
    video := some { url := "u", caption := none, hashtags := [], firstComment := none },
    facebook := dueRec, instagram := defaultRecord }

/-- A published story with no video but a due Facebook record. -/
def storyNoVideo : Story :=
  { title := "t", isPublished := true, scheduledDate := none,
    video := none, facebook := dueRec, instagram := defaultRecord }

/-- A result for a platform whose publish is never invoked. -/
def igStub : SMResult :=
  { success := false, postId := none, needsComment := false, firstComment := none,
    error := some "unused" }

/-- A status oracle answering `IN_PROGRESS` to every poll. -/
def stAllInProgress : Nat → PollAttempt :=
  fun _ => PollAttempt.response { statusCode := some "IN_PROGRESS", statusField := none }

/-- A status oracle answering `IN_PROGRESS` once and `ERROR` on the
second poll. -/
def stErrorAt2 : Nat → PollAttempt :=
  fun i =>
    if i = 2 then PollAttempt.response { statusCode := some "ERROR", statusField := none }
    else PollAttempt.response { statusCode := some "IN_PROGRESS", statusField := none }

/-- A status oracle whose second poll throws a transport error. -/
def stTransportAt2 : Nat → PollAttempt :=
  fun i =>
    if i = 2 then PollAttempt.transportErr "socket hang up"
    else PollAttempt.response { statusCode := some "IN_PROGRESS", statusField := none }

/-- An Instagram environment whose container never finishes processing. -/
def igEnvStuck : IGEnv :=
  { createCall := Except.ok "container_1", statuses := stAllInProgress,
    publishCall := Except.ok "ig_post_1" }

/-- An axios error with a structured API message. -/
def permErr : ApiError :=
  { apiErrMsg := some "permissions error", dataMsg := none,
    message := some "Request failed with status code 400" }

/-- A comment environment where both endpoint shapes fail. -/
def commentEnvBothFail : CommentEnv :=
  { primaryCall := Except.error permErr, altCall := Except.error rateLimitedErr }

/-- A concrete comment failure result. -/
def commentFail : CommentResult :=
  (igPostComment (Except.error permErr)).1

/-- A concrete comment success result. -/
def commentOk : CommentResult :=
  (igPostComment (Except.ok "comment_9")).1

/-- A valid event sequence: a tick starts, a second trigger fires while
it runs, the body throws, and a later trigger starts a fresh tick. -/
def evSeq : List TickEvent :=
  [TickEvent.trigger, TickEvent.trigger, TickEvent.bodyDone false, TickEvent.trigger]

/-!  Helper lemmas. -/

/-- A truthy optional string is present. -/
lemma truthy_isSome {o : Option String} (h : truthy o = true) : o.isSome = true := by
  cases o with
  | none => simp [truthy] at h
  | some s => rfl

/-- A transient attempt makes the loop poll once more and recurse. -/
lemma waitFrom_transient (st : Nat → PollAttempt) (a rem : Nat)
    (h : transientAttempt (st a) = true) :
    waitFrom st a (rem + 1) =
      ((waitFrom st (a + 1) rem).1, (waitFrom st (a + 1) rem).2 + 1) := by
  unfold transientAttempt at h
  rw [Option.isNone_iff_eq_none] at h
  simp [waitFrom, h]

/-- A run of transient attempts exhausts the loop: `timeout` after
exactly `rem` polls. -/
lemma waitFrom_allTransient (st : Nat → PollAttempt) :
    ∀ (rem a : Nat), (∀ i, a ≤ i → i < a + rem → transientAttempt (st i) = true) →
      waitFrom st a rem = (PollExit.timeout, rem) := by
  intro rem
  induction rem with
  | zero => intro a _; rfl
  | succ n ih =>
    intro a h
    rw [waitFrom_transient st a n (h a le_rfl (by omega))]
    rw [ih (a + 1) (fun i h1 h2 => h i (by omega) (by omega))]

/-- A terminal attempt after `j` transient ones ends the loop at poll
`j + 1` with the corresponding exit. -/
lemma waitFrom_hit (st : Nat → PollAttempt) :
    ∀ (j a rem : Nat) (e : PollExit), j < rem →
      (∀ i, a ≤ i → i < a + j → transientAttempt (st i) = true) →
      terminalExit (st (a + j)) = some e →
      waitFrom st a rem = (e, j + 1) := by
  intro j
  induction j with
  | zero =>
    intro a rem e hlt _ hterm
    obtain ⟨rem', rfl⟩ : ∃ r, rem = r + 1 := ⟨rem - 1, by omega⟩
    rw [Nat.add_zero] at hterm
    simp [waitFrom, hterm]
  | succ n ih =>
    intro a rem e hlt htr hterm
    obtain ⟨rem', rfl⟩ : ∃ r, rem = r + 1 := ⟨rem - 1, by omega⟩
    rw [waitFrom_transient st a rem' (htr a le_rfl (by omega))]
    have hrec := ih (a + 1) rem' e (by omega)
      (fun i h1 h2 => htr i (by omega) (by omega))
      (by rw [show a + 1 + n = a + (n + 1) from by omega]; exact hterm)
    rw [hrec]

/-- `toBool` is `true` exactly at the FINISHED exit. -/
lemma pollExit_toBool_eq_true {e : PollExit} :
    e.toBool = true ↔ e = PollExit.finished := by
  cases e <;> simp [PollExit.toBool]

/-- The publish guard holds exactly on due records: a scheduled time that
has arrived and `posted` still false. -/
lemma shouldPost_iff (r : PlatformRecord) (now : Nat) :
    shouldPost r now = true ↔
      ∃ t, r.scheduledTime = some t ∧ t ≤ now ∧ r.posted = false := by
  cases ht : r.scheduledTime with
  | none => simp [shouldPost, isScheduledTimeReached, ht]
  | some t => simp [shouldPost, isScheduledTimeReached, ht]

/-- The result merge preserves the record invariant, provided success
results carry a truthy post id. -/
lemma mergeResult_inv (r : PlatformRecord) (res : SMResult) (now : Nat)
    (h2 : r.failed = false)
    (hid : res.success = true → truthy res.postId = true) :
    ((mergeResult r res now).posted = true →
      (mergeResult r res now).postedAt.isSome = true ∧
      (mergeResult r res now).postId.isSome = true) ∧
    (mergeResult r res now).failed = false := by
  cases hs : res.success with
  | false => simp [mergeResult, hs, h2]
  | true =>
    have hp := hid hs
    refine ⟨fun _ => ⟨by simp [mergeResult, hs], ?_⟩, by simp [mergeResult, h2]⟩
    simpa [mergeResult, hp] using truthy_isSome hp

/-- Each platform branch of the due query is monotone in `now`. -/
lemma platformDueQuery_mono (r : PlatformRecord) (now now' : Nat)
    (h : now ≤ now') (hq : platformDueQuery r now = true) :
    platformDueQuery r now' = true := by
  cases ht : r.scheduledTime with
  | none => simp [platformDueQuery, ht] at hq
  | some t =>
    simp [platformDueQuery, ht] at hq ⊢
    exact ⟨le_trans hq.1 h, hq.2⟩

/-- The due-story query is monotone in `now`. -/
lemma storyDueQuery_mono (s : Story) (now now' : Nat)
    (h : now ≤ now') (hq : storyDueQuery s now = true) :
    storyDueQuery s now' = true := by
  simp only [storyDueQuery, Bool.and_eq_true, Bool.or_eq_true] at hq ⊢
  refine ⟨hq.1, ?_⟩
  rcases hq.2 with h1 | h1
  · exact Or.inl (platformDueQuery_mono _ _ _ h h1)
  · exact Or.inr (platformDueQuery_mono _ _ _ h h1)

/-- One valid event preserves the single-flight invariant. -/
lemma schedStep_inv (s : SchedState) (e : TickEvent)
    (hs : schedInv s) (he : eventOk s e = true) : schedInv (schedStep s e) := by
  obtain ⟨h1, h2⟩ := hs
  cases e with
  | trigger =>
    by_cases hr : s.isRunning
    · simpa [schedStep, hr] using ⟨h1, h2⟩
    · have h0 : s.active = 0 := by
        have : ¬ s.active = 1 := fun hc => hr (h2.mpr hc)
        omega
      simp [schedStep, hr, schedInv, h0]
  | bodyDone ok =>
    simp only [eventOk, decide_eq_true_eq] at he
    have h1' : s.active = 1 := le_antisymm h1 he
    simp [schedStep, schedInv, h1']

/-- The invariant holds after any valid run from an invariant state. -/
lemma validFrom_inv (evs : List TickEvent) :
    ∀ s : SchedState, schedInv s → validFrom s evs = true →
      schedInv (runEvents s evs) := by
  induction evs with
  | nil => intro s h _; exact h
  | cons e rest ih =>
    intro s hs hv
    simp only [validFrom, Bool.and_eq_true] at hv
    exact ih (schedStep s e) (schedStep_inv s e hs hv.1) hv.2

/-!  Claim theorems. -/

/-- Claim C3: along any valid sequence of tick triggers from the initial
state, at most one execution of the due-item processing body runs at a
time and the running flag tracks it; a tick triggered while a previous
tick is still running is an exact no-op on the scheduler state (dropped,
not queued); and the running flag is false after every body completion,
whether the body resolved or threw. -/
theorem c3_single_flight (evs : List TickEvent)
    (h : validFrom startSched evs = true) :
    ((runEvents startSched evs).active ≤ 1 ∧
      ((runEvents startSched evs).isRunning = true ↔
        (runEvents startSched evs).active = 1)) ∧
    (∀ s : SchedState, s.isRunning = true → schedStep s TickEvent.trigger = s) ∧
    (∀ (s : SchedState) (ok : Bool),
      (schedStep s (TickEvent.bodyDone ok)).isRunning = false) := by
  refine ⟨validFrom_inv evs startSched ⟨Nat.zero_le 1, by simp [startSched]⟩ h, ?_, ?_⟩
  · intro s hs; simp [schedStep, hs]
  · intro s ok; rfl

/-- Witness for C3 at the concrete event sequence `evSeq`. -/
theorem c3_single_flight_witness :
    validFrom startSched evSeq = true ∧
    (runEvents startSched evSeq).active ≤ 1 ∧
    ((runEvents startSched evSeq).isRunning = true ↔
      (runEvents startSched evSeq).active = 1) :=
  ⟨by decide, (c3_single_flight evSeq (by decide)).1.1,
    (c3_single_flight evSeq (by decide)).1.2⟩

/-- Claim C5: the readiness poller returns `finished` (Ready, boolean
`true`) at the first FINISHED status; returns `badStatus` (Failed,
boolean `false`) at the first ERROR or EXPIRED status, stopping at that
attempt; after `maxAttempts` transient polls it returns `timeout`
(TimedOut) having polled exactly `maxAttempts` times, not one more; and
`IN_PROGRESS`, `PUBLISHED` and unrecognised statuses are all transient. -/
theorem c5_readiness_polling_bounds (st : Nat → PollAttempt) (maxR : Nat) :
    (∀ k, 1 ≤ k → k ≤ maxR →
      (∀ i, 1 ≤ i → i < k → transientAttempt (st i) = true) →
      (terminalExit (st k) = some PollExit.finished →
        waitForMediaReady st maxR = (PollExit.finished, k)) ∧
      (terminalExit (st k) = some PollExit.badStatus →
        waitForMediaReady st maxR = (PollExit.badStatus, k))) ∧
    ((∀ i, 1 ≤ i → i ≤ maxR → transientAttempt (st i) = true) →
      waitForMediaReady st maxR = (PollExit.timeout, maxR)) ∧
    transientAttempt
      (PollAttempt.response { statusCode := some "IN_PROGRESS", statusField := none }) = true ∧
    transientAttempt
      (PollAttempt.response { statusCode := some "PUBLISHED", statusField := none }) = true ∧
    transientAttempt
      (PollAttempt.response { statusCode := some "SOME_FUTURE_STATUS", statusField := none }) = true ∧
    terminalExit
      (PollAttempt.response { statusCode := some "ERROR", statusField := none }) =
        some PollExit.badStatus ∧
    terminalExit
      (PollAttempt.response { statusCode := some "EXPIRED", statusField := none }) =
        some PollExit.badStatus ∧
    terminalExit
      (PollAttempt.response { statusCode := some "FINISHED", statusField := none }) =
        some PollExit.finished ∧
    PollExit.finished.toBool = true ∧
    PollExit.badStatus.toBool = false ∧
    PollExit.timeout.toBool = false := by
  refine ⟨?_, ?_, by decide, by decide, by decide, by decide, by decide, by decide,
    rfl, rfl, rfl⟩
  · intro k hk1 hk2 htr
    constructor
    · intro hterm
      have hhit := waitFrom_hit st (k - 1) 1 maxR PollExit.finished (by omega)
        (fun i hi1 hi2 => htr i (by omega) (by omega))
        (by rw [show 1 + (k - 1) = k from by omega]; exact hterm)
      simpa [waitForMediaReady, show k - 1 + 1 = k from by omega] using hhit
    · intro hterm
      have hhit := waitFrom_hit st (k - 1) 1 maxR PollExit.badStatus (by omega)
        (fun i hi1 hi2 => htr i (by omega) (by omega))
        (by rw [show 1 + (k - 1) = k from by omega]; exact hterm)
      simpa [waitForMediaReady, show k - 1 + 1 = k from by omega] using hhit
  · intro htr
    exact waitFrom_allTransient st maxR 1 (fun i hi1 hi2 => htr i hi1 (by omega))

/-- Witness for C5: three IN_PROGRESS polls with `maxAttempts = 3` time
out after exactly 3 polls, and an ERROR on the second poll stops the wait
after 2 polls with the Failed exit. -/
theorem c5_readiness_polling_bounds_witness :
    waitForMediaReady stAllInProgress 3 = (PollExit.timeout, 3) ∧
    waitForMediaReady stErrorAt2 3 = (PollExit.badStatus, 2) :=
  ⟨(c5_readiness_polling_bounds stAllInProgress 3).2.1 (fun i _ _ => rfl),
   ((c5_readiness_polling_bounds stErrorAt2 3).1 2 (by decide) (by decide)
      (fun i h1 h2 => by
        have hi : i = 1 := by omega
        subst hi; decide)).2 (by decide)⟩

/-- Claim C7: a transport error thrown during poll attempt `k` ends the
whole wait at that attempt: the loop is aborted through the outer catch,
no further polls happen, and the wait returns the Failed boolean. -/
theorem c7_transport_error_aborts (st : Nat → PollAttempt) (maxR k : Nat) (m : String)
    (h1 : 1 ≤ k) (h2 : k ≤ maxR)
    (h3 : ∀ i, 1 ≤ i → i < k → transientAttempt (st i) = true)
    (h4 : st k = PollAttempt.transportErr m) :
    waitForMediaReady st maxR = (PollExit.transport m, k) ∧
    (PollExit.transport m).toBool = false := by
  constructor
  · have hhit := waitFrom_hit st (k - 1) 1 maxR (PollExit.transport m) (by omega)
      (fun i hi1 hi2 => h3 i (by omega) (by omega))
      (by rw [show 1 + (k - 1) = k from by omega, h4]; rfl)
    simpa [waitForMediaReady, show k - 1 + 1 = k from by omega] using hhit
  · rfl

/-- Witness for C7: a transport error on the second of 30 polls ends the
wait after exactly 2 polls. -/
theorem c7_transport_error_aborts_witness :
    waitForMediaReady stTransportAt2 30 = (PollExit.transport "socket hang up", 2) ∧
    (PollExit.transport "socket hang up").toBool = false :=
  c7_transport_error_aborts stTransportAt2 30 2 "socket hang up" (by decide) (by decide)
    (fun i hi1 hi2 => by
      have hi : i = 1 := by omega
      subst hi; decide)
    (by decide)

/-- Counterexample for C1 as stated: when the Facebook create call
answers HTTP success but the response id is the empty string, the merge
sets `posted = true` (and `postedAt`), yet the truthiness-guarded
`postId` assignment is skipped, so after the run the record has
`posted = true` with `postId` unset. -/
theorem c1_counterexample :
    (postToSocialMedia storyFBDue 10 emptyIdRes igStub).story.facebook.posted = true ∧
    (postToSocialMedia storyFBDue 10 emptyIdRes igStub).story.facebook.postId = none := by
  decide

/-- Claim C1 (amended): a scheduler run preserves the record invariant -
`posted = true` implies `postedAt` and `postId` are set, and `posted` and
`failed` are never simultaneously true - provided every success outcome
fed to the merge carries a non-empty post id (without that proviso the
claim fails, see the counterexample).  The merge never writes `failed`,
so `failed` stays false. -/
theorem c1_record_invariant (s : Story) (now : Nat) (fbRes igRes : SMResult)
    (hfb1 : s.facebook.posted = true →
      s.facebook.postedAt.isSome = true ∧ s.facebook.postId.isSome = true)
    (hfb2 : s.facebook.failed = false)
    (hig1 : s.instagram.posted = true →
      s.instagram.postedAt.isSome = true ∧ s.instagram.postId.isSome = true)
    (hig2 : s.instagram.failed = false)
    (hfbid : fbRes.success = true → truthy fbRes.postId = true)
    (higid : igRes.success = true → truthy igRes.postId = true) :
    ((postToSocialMedia s now fbRes igRes).story.facebook.posted = true →
      (postToSocialMedia s now fbRes igRes).story.facebook.postedAt.isSome = true ∧
      (postToSocialMedia s now fbRes igRes).story.facebook.postId.isSome = true) ∧
    (postToSocialMedia s now fbRes igRes).story.facebook.failed = false ∧
    ((postToSocialMedia s now fbRes igRes).story.instagram.posted = true →
      (postToSocialMedia s now fbRes igRes).story.instagram.postedAt.isSome = true ∧
      (postToSocialMedia s now fbRes igRes).story.instagram.postId.isSome = true) ∧
    (postToSocialMedia s now fbRes igRes).story.instagram.failed = false := by
  have hfbP := mergeResult_inv s.facebook fbRes now hfb2 hfbid
  have higP := mergeResult_inv s.instagram igRes now hig2 higid
  cases hv : s.video with
  | none =>
    simp only [postToSocialMedia, hv]
    exact ⟨hfb1, hfb2, hig1, hig2⟩
  | some v =>
    cases hfb : shouldPost s.facebook now <;> cases hig : shouldPost s.instagram now <;>
      simp only [postToSocialMedia, hv, hfb, hig, if_true, if_false,
        Bool.false_eq_true] <;>
      first
      | exact ⟨hfb1, hfb2, hig1, hig2⟩
      | exact ⟨hfb1, hfb2, higP.1, higP.2⟩
      | exact ⟨hfbP.1, hfbP.2, hig1, hig2⟩
      | exact ⟨hfbP.1, hfbP.2, higP.1, higP.2⟩

/-- Witness for C1 (amended) at a due Facebook record merged with a
success carrying a non-empty id. -/
theorem c1_record_invariant_witness :
    (postToSocialMedia storyFBDue 10 fbOkRes igStub).story.facebook.postedAt.isSome = true ∧
    (postToSocialMedia storyFBDue 10 fbOkRes igStub).story.facebook.postId.isSome = true ∧
    (postToSocialMedia storyFBDue 10 fbOkRes igStub).story.facebook.failed = false := by
  have h := c1_record_invariant storyFBDue 10 fbOkRes igStub
    (by decide) (by decide) (by decide) (by decide) (by decide) (by decide)
  exact ⟨(h.1 (by decide)).1, (h.1 (by decide)).2, h.2.1⟩

/-- Counterexample for C2 as stated: merging a Failure outcome leaves
`failed` at false (the claim says the merge sets `failed = true`), and
merging a Success outcome into a record holding a stale error message
leaves `error` set (the claim says Success clears `failed`/`error`). -/
theorem c2_counterexample :
    (mergeResult dueRec failRes 100).failed = false ∧
    (mergeResult erroredRec fbOkRes 100).error = some "old failure" := by
  decide

/-- Claim C2 (amended): the merge of a platform outcome sets, on Success,
`posted = true`, `postedAt = now` and `postId` to the outcome's id when
that id is non-empty (leaving `postId` unchanged otherwise), and leaves
`failed` and `error` unchanged (it does not clear them); on Failure it
sets `posted = false` and `error` to the failure message, leaving
`failed`, `postedAt` and `postId` untouched.  The hypothesis records
that client Failure outcomes carry no post id. -/
theorem c2_merge_outcome (r : PlatformRecord) (res : SMResult) (now : Nat)
    (hshape : res.success = false → res.postId = none) :
    (res.success = true →
      (mergeResult r res now).posted = true ∧
      (mergeResult r res now).postedAt = some now ∧
      (truthy res.postId = true → (mergeResult r res now).postId = res.postId) ∧
      (truthy res.postId = false → (mergeResult r res now).postId = r.postId) ∧
      (mergeResult r res now).failed = r.failed ∧
      (mergeResult r res now).error = r.error) ∧
    (res.success = false →
      (mergeResult r res now).posted = false ∧
      (mergeResult r res now).failed = r.failed ∧
      (mergeResult r res now).error = res.error ∧
      (mergeResult r res now).postedAt = r.postedAt ∧
      (mergeResult r res now).postId = r.postId) := by
  constructor
  · intro hs
    refine ⟨by simp [mergeResult, hs], by simp [mergeResult, hs], ?_, ?_,
      by simp [mergeResult], by simp [mergeResult, hs]⟩
    · intro hp; simp [mergeResult, hp]
    · intro hp; simp [mergeResult, hp]
  · intro hs
    have hnone := hshape hs
    exact ⟨by simp [mergeResult, hs], by simp [mergeResult],
      by simp [mergeResult, hs], by simp [mergeResult, hs],
      by simp [mergeResult, hnone, truthy]⟩

/-- Witness for C2 (amended) on a concrete success merge and a concrete
failure merge. -/
theorem c2_merge_outcome_witness :
    (mergeResult dueRec fbOkRes 100).posted = true ∧
    (mergeResult dueRec fbOkRes 100).postedAt = some 100 ∧
    (mergeResult dueRec fbOkRes 100).postId = fbOkRes.postId ∧
    (mergeResult dueRec failRes 100).posted = false ∧
    (mergeResult dueRec failRes 100).error = failRes.error := by
  have hok := c2_merge_outcome dueRec fbOkRes 100 (by decide)
  have hfail := c2_merge_outcome dueRec failRes 100 (by decide)
  exact ⟨(hok.1 (by decide)).1, (hok.1 (by decide)).2.1,
    (hok.1 (by decide)).2.2.1 (by decide),
    (hfail.2 (by decide)).1, (hfail.2 (by decide)).2.2.1⟩

/-- Claim C4: for a story with a video processed in a tick, each
platform's publish is invoked exactly when that platform's record is due:
`scheduledTime` is set, `scheduledTime ≤ now`, and `posted = false`; and
a record with `posted = true` is never matched by its branch of the
due-discovery query and never published again, regardless of its
`scheduledTime`. -/
theorem c4_due_guard (s : Story) (now : Nat) (fbRes igRes : SMResult)
    (hv : s.video.isSome = true) :
    ((postToSocialMedia s now fbRes igRes).fbCalled = true ↔
      ∃ t, s.facebook.scheduledTime = some t ∧ t ≤ now ∧ s.facebook.posted = false) ∧
    ((postToSocialMedia s now fbRes igRes).igCalled = true ↔
      ∃ t, s.instagram.scheduledTime = some t ∧ t ≤ now ∧ s.instagram.posted = false) ∧
    (s.facebook.posted = true →
      (postToSocialMedia s now fbRes igRes).fbCalled = false ∧
      platformDueQuery s.facebook now = false) ∧
    (s.instagram.posted = true →
      (postToSocialMedia s now fbRes igRes).igCalled = false ∧
      platformDueQuery s.instagram now = false) := by
  obtain ⟨v, hveq⟩ := Option.isSome_iff_exists.mp hv
  have hfbc : (postToSocialMedia s now fbRes igRes).fbCalled =
      shouldPost s.facebook now := by
    simp [postToSocialMedia, hveq]
  have higc : (postToSocialMedia s now fbRes igRes).igCalled =
      shouldPost s.instagram now := by
    simp [postToSocialMedia, hveq]
  refine ⟨?_, ?_, ?_, ?_⟩
  · rw [hfbc]; exact shouldPost_iff s.facebook now
  · rw [higc]; exact shouldPost_iff s.instagram now
  · intro hp
    exact ⟨by rw [hfbc]; simp [shouldPost, hp], by simp [platformDueQuery, hp]⟩
  · intro hp
    exact ⟨by rw [higc]; simp [shouldPost, hp], by simp [platformDueQuery, hp]⟩

/-- Witness for C4: the due Facebook record triggers its publish call,
and a posted record would not. -/
theorem c4_due_guard_witness :
    storyFBDue.video.isSome = true ∧
    (postToSocialMedia storyFBDue 10 fbOkRes igStub).fbCalled = true :=
  ⟨by decide,
    (c4_due_guard storyFBDue 10 fbOkRes igStub (by decide)).1.mpr
      ⟨5, rfl, by omega, rfl⟩⟩

/-- Claim C6: when the readiness poll of the two-phase Instagram publish
does not end Ready (it returned the Failed or TimedOut boolean), the
publish returns a Failure outcome carrying a message - the fixed
descriptive message whenever the container had been created - and the
publish returns Success only when the poller ended at the FINISHED
exit. -/
theorem c6_two_phase_publish (env : IGEnv) (fc : String) :
    ((waitForMediaReady env.statuses 30).1.toBool = false →
      (igPostVideo env fc).success = false ∧
      (igPostVideo env fc).error.isSome = true ∧
      (∀ cid, env.createCall = Except.ok cid →
        (igPostVideo env fc).error =
          some "Media container failed to process or timed out")) ∧
    ((igPostVideo env fc).success = true →
      (waitForMediaReady env.statuses 30).1 = PollExit.finished) := by
  cases hc : env.createCall with
  | error e =>
    have heq : igPostVideo env fc = igFailure e := by simp [igPostVideo, hc]
    constructor
    · intro _
      refine ⟨by rw [heq]; rfl, by rw [heq]; rfl, ?_⟩
      intro cid hcid
      exact absurd hcid (by simp)
    · intro hs
      rw [heq] at hs
      simp [igFailure] at hs
  | ok cid =>
    cases hw : (waitForMediaReady env.statuses 30).1.toBool with
    | false =>
      have heq : igPostVideo env fc = igFailure containerStuckErr := by
        simp [igPostVideo, hc, hw]
      constructor
      · intro _
        exact ⟨by rw [heq]; rfl, by rw [heq]; rfl, fun _ _ => by rw [heq]; rfl⟩
      · intro hs
        rw [heq] at hs
        simp [igFailure] at hs
    | true =>
      constructor
      · intro hfalse
        exact absurd hfalse (by simp)
      · intro _
        exact pollExit_toBool_eq_true.mp hw

/-- Witness for C6: a container stuck IN_PROGRESS for all 30 polls makes
the publish fail with the descriptive message. -/
theorem c6_two_phase_publish_witness :
    (igPostVideo igEnvStuck "hi").success = false ∧
    (igPostVideo igEnvStuck "hi").error =
      some "Media container failed to process or timed out" := by
  have h := (c6_two_phase_publish igEnvStuck "hi").1 (by decide)
  exact ⟨h.1, h.2.2 "container_1" rfl⟩

/-- Counterexample for C8 as stated: Instagram's comment operation has no
alternate endpoint fallback - when the primary call fails it gives up
after that single attempt (1 HTTP attempt, not the 2 the claim requires
of every platform). -/
theorem c8_counterexample :
    (igPostComment (Except.error permErr)).1.success = false ∧
    (igPostComment (Except.error permErr)).2 = 1 ∧
    (igPostComment (Except.error permErr)).2 ≠ 2 := by
  decide

/-- Claim C8 (amended): Facebook's comment operation attempts exactly one
alternate endpoint shape when the primary call fails (two attempts in
total; one when the primary succeeds); Instagram's comment operation
always makes exactly one attempt, with no alternate; and the comment
outcome written by the deferred job never changes the
posted/postId/postedAt/failed state of any platform record. -/
theorem c8_comment_fallback (env : CommentEnv) (call : Except ApiError String)
    (s : Story) (p : Platform) (cr : CommentResult) :
    (∀ e, env.primaryCall = Except.error e → (fbPostComment env).2 = 2) ∧
    (∀ cid, env.primaryCall = Except.ok cid → (fbPostComment env).2 = 1) ∧
    (igPostComment call).2 = 1 ∧
    (∀ q : Platform,
      ((applyCommentUpdate s p cr).recordOf q).posted = (s.recordOf q).posted ∧
      ((applyCommentUpdate s p cr).recordOf q).postId = (s.recordOf q).postId ∧
      ((applyCommentUpdate s p cr).recordOf q).postedAt = (s.recordOf q).postedAt ∧
      ((applyCommentUpdate s p cr).recordOf q).failed = (s.recordOf q).failed) := by
  refine ⟨?_, ?_, ?_, ?_⟩
  · intro e he
    cases hcall : env.altCall <;> simp [fbPostComment, he, hcall]
  · intro cid he
    simp [fbPostComment, he]
  · cases call <;> simp [igPostComment]
  · intro q
    cases hs : cr.success <;> cases p <;> cases q <;>
      simp [applyCommentUpdate, hs, setRecord, Story.recordOf]

/-- Witness for C8 (amended) at concrete comment environments. -/
theorem c8_comment_fallback_witness :
    (fbPostComment commentEnvBothFail).2 = 2 ∧
    (igPostComment (Except.error permErr)).2 = 1 ∧
    ((applyCommentUpdate storyFBDue Platform.facebook commentFail).recordOf
        Platform.facebook).posted =
      (storyFBDue.recordOf Platform.facebook).posted := by
  have h := c8_comment_fallback commentEnvBothFail (Except.error permErr)
    storyFBDue Platform.facebook commentFail
  exact ⟨h.1 permErr rfl, h.2.2.1, (h.2.2.2 Platform.facebook).1⟩

/-- Claim C9: the deferred comment job performs a targeted field-level
update: on comment success it writes only `commentId` of the given
platform record, on comment failure only `commentError`; every other
field of that record, the entire other platform record, and the story's
top-level fields are unchanged; in particular a comment error is never
escalated to `failed`. -/
theorem c9_deferred_comment_frame (s : Story) (p : Platform) (cr : CommentResult) :
    ((applyCommentUpdate s p cr).recordOf p).posted = (s.recordOf p).posted ∧
    ((applyCommentUpdate s p cr).recordOf p).postId = (s.recordOf p).postId ∧
    ((applyCommentUpdate s p cr).recordOf p).postedAt = (s.recordOf p).postedAt ∧
    ((applyCommentUpdate s p cr).recordOf p).scheduledTime = (s.recordOf p).scheduledTime ∧
    ((applyCommentUpdate s p cr).recordOf p).error = (s.recordOf p).error ∧
    ((applyCommentUpdate s p cr).recordOf p).failed = (s.recordOf p).failed ∧
    (cr.success = true →
      ((applyCommentUpdate s p cr).recordOf p).commentId = cr.commentId ∧
      ((applyCommentUpdate s p cr).recordOf p).commentError = (s.recordOf p).commentError) ∧
    (cr.success = false →
      ((applyCommentUpdate s p cr).recordOf p).commentError = cr.error ∧
      ((applyCommentUpdate s p cr).recordOf p).commentId = (s.recordOf p).commentId) ∧
    (∀ q : Platform, q ≠ p → (applyCommentUpdate s p cr).recordOf q = s.recordOf q) ∧
    (applyCommentUpdate s p cr).title = s.title ∧
    (applyCommentUpdate s p cr).isPublished = s.isPublished ∧
    (applyCommentUpdate s p cr).scheduledDate = s.scheduledDate ∧
    (applyCommentUpdate s p cr).video = s.video := by
  cases hs : cr.success <;> cases p <;>
    refine ⟨?_, ?_, ?_, ?_, ?_, ?_, ?_, ?_, ?_, ?_, ?_, ?_, ?_⟩ <;>
    try simp [applyCommentUpdate, hs, setRecord, Story.recordOf]
  all_goals
    intro q hq
  all_goals
    cases q <;> simp_all [applyCommentUpdate, hs, setRecord, Story.recordOf]

/-- Witness for C9 at a concrete successful comment on the Facebook
record. -/
theorem c9_deferred_comment_frame_witness :
    ((applyCommentUpdate storyFBDue Platform.facebook commentOk).recordOf
        Platform.facebook).commentId = commentOk.commentId ∧
    ((applyCommentUpdate storyFBDue Platform.facebook commentOk).recordOf
        Platform.facebook).posted = (storyFBDue.recordOf Platform.facebook).posted ∧
    (applyCommentUpdate storyFBDue Platform.facebook commentOk).recordOf
        Platform.instagram = storyFBDue.recordOf Platform.instagram := by
  have h := c9_deferred_comment_frame storyFBDue Platform.facebook commentOk
  exact ⟨(h.2.2.2.2.2.2.1 (by decide)).1, h.1,
    h.2.2.2.2.2.2.2.2.1 Platform.instagram (by decide)⟩

/-- Claim C10: a story returned by due-discovery whose `video` field is
absent is left completely unchanged by the tick's posting step - no
platform publish call, no deferred comment job, no save, no record
update - and since due-discovery is monotone in time, the story remains
due on every subsequent tick. -/
theorem c10_no_video_frame (s : Story) (now now' : Nat) (fbRes igRes : SMResult)
    (hv : s.video = none) (hle : now ≤ now') :
    (postToSocialMedia s now fbRes igRes).story = s ∧
    (postToSocialMedia s now fbRes igRes).fbCalled = false ∧
    (postToSocialMedia s now fbRes igRes).igCalled = false ∧
    (postToSocialMedia s now fbRes igRes).jobs = [] ∧
    (postToSocialMedia s now fbRes igRes).saved = false ∧
    (storyDueQuery s now = true → storyDueQuery s now' = true) := by
  refine ⟨?_, ?_, ?_, ?_, ?_, storyDueQuery_mono s now now' hle⟩ <;>
    simp [postToSocialMedia, hv]

/-- Witness for C10 at a due story without a video. -/
theorem c10_no_video_frame_witness :
    (postToSocialMedia storyNoVideo 10 fbOkRes igStub).story = storyNoVideo ∧
    (postToSocialMedia storyNoVideo 10 fbOkRes igStub).saved = false ∧
    storyDueQuery storyNoVideo 20 = true := by
  have h := c10_no_video_frame storyNoVideo 10 20 fbOkRes igStub rfl (by omega)
  exact ⟨h.1, h.2.2.2.2.1, h.2.2.2.2.2 (by decide)⟩
